import Mathlib

/-!
Verification development for the lvx log viewer (src/main.rs).

The engine state (struct App), its ingestion, filtering and search-navigation
operations are embedded shallowly: Rust Vec becomes List, HashSet of selected
row indices becomes List Nat, String operations are modelled over the
underlying character lists, and usize arithmetic is modelled as Nat with an
explicit wrap modulo 2^64 at the one place where an underflow can occur.
Fallible steps (JSON decoding of a line, timestamp parsing) return Option.
-/

/-- Rust usize on a 64-bit target: values live below 2^64. -/
def USIZEMOD : Nat := 2 ^ 64

/-- Wrapping usize subtraction a - b (release-mode Rust semantics; a debug
build panics where this wraps).  For a ≥ b and a < 2^64 it agrees with
ordinary subtraction. -/
def usizeSub (a b : Nat) : Nat := (a + (USIZEMOD - b % USIZEMOD)) % USIZEMOD

/-- ASCII lowercasing of one character, the model of what Rust
char::to_lowercase does on the ASCII range (the inputs exercised here). -/
def lowerChar (c : Char) : Char :=
  if 65 ≤ c.toNat ∧ c.toNat ≤ 90 then Char.ofNat (c.toNat + 32) else c

/-- Model of Rust String::to_lowercase (ASCII range). -/
def lowerStr (s : String) : String := String.mk (s.data.map lowerChar)

/-- needle.isPrefixOf hay over characters: model of str prefix testing used
by substring search. -/
def isPrefixOfChars : List Char → List Char → Bool
  | [], _ => true
  | _ :: _, [] => false
  | a :: as, b :: bs => a = b && isPrefixOfChars as bs

/-- Model of Rust str::contains for plain substring needles: true iff needle
occurs contiguously inside hay. -/
def containsChars : List Char → List Char → Bool
  | [], needle => needle.isEmpty
  | c :: t, needle => isPrefixOfChars needle (c :: t) || containsChars t needle

/-- Model of hay.to_lowercase().contains(&needle.to_lowercase()) from
App::filter and App::search (src/main.rs lines 403-405 and 446-448). -/
def containsCI (hay needle : String) : Bool :=
  containsChars (lowerStr hay).data (lowerStr needle).data

/-- Log severity, src/main.rs lines 518-526. -/
inductive Level where
  | Unknown : Level
  | Debug : Level
  | Info : Level
  | Warning : Level
  | Error : Level
  | Panic : Level
deriving DecidableEq

/-- Level::from_string, src/main.rs lines 529-538: exact, case-sensitive
match on the five known tokens, anything else is Unknown. -/
def Level.from_string (level : String) : Level :=
  if level = "DEBUG" then Level.Debug
  else if level = "INFO" then Level.Info
  else if level = "WARN" then Level.Warning
  else if level = "ERROR" then Level.Error
  else if level = "PANIC" then Level.Panic
  else Level.Unknown

/-- Level::to_string, src/main.rs lines 539-548. -/
def Level.to_string : Level → String
  | Level.Debug => "DEBUG"
  | Level.Info => "INFO"
  | Level.Warning => "WARN"
  | Level.Error => "ERROR"
  | Level.Panic => "PANIC"
  | Level.Unknown => "N/A"

/-- Components of a successfully parsed timestamp (chrono DateTime kept at
the precision the format string extracts; the conversion with_timezone to
Local changes only the rendering of the instant and is not modelled). -/
structure TimeParts where
  year : Nat
  month : Nat
  day : Nat
  hour : Nat
  minute : Nat
  second : Nat
  millis : Nat
  offNeg : Bool
  offHour : Nat
  offMinute : Nat
deriving DecidableEq

def isLeapYear (y : Nat) : Bool := (y % 4 == 0 && y % 100 != 0) || y % 400 == 0

def daysInMonth (y m : Nat) : Nat :=
  if m = 2 then (if isLeapYear y then 29 else 28)
  else if m = 4 ∨ m = 6 ∨ m = 9 ∨ m = 11 then 30
  else 31

/-- Read exactly n decimal digits, most significant first. -/
def parseNDigits : Nat → Nat → List Char → Option (Nat × List Char)
  | 0, acc, s => some (acc, s)
  | n + 1, acc, c :: s =>
      if c.isDigit then parseNDigits n (acc * 10 + (c.toNat - 48)) s else none
  | _ + 1, _, [] => none

def expectChar (c : Char) : List Char → Option (List Char)
  | x :: xs => if x = c then some xs else none
  | [] => none

/-- Fractional part of the timestamp format: an optional dot followed by
exactly three digits (chrono fixed item Nanosecond3 at millisecond width). -/
def parseDotMillis (r : List Char) : Option (Nat × List Char) :=
  match r with
  | '.' :: r2 => parseNDigits 3 0 r2
  | _ => some (0, r)

/-- Numeric UTC offset of the timestamp format (chrono %z): a mandatory
sign, two hour digits, an optional colon, two minute digits.  Returns
(negative?, hours, minutes) and the rest. -/
def parseUtcOffset (r : List Char) : Option ((Bool × Nat × Nat) × List Char) :=
  (match r with
    | '+' :: r2 => some (false, r2)
    | '-' :: r2 => some (true, r2)
    | _ => none).bind fun sgn =>
  (parseNDigits 2 0 sgn.2).bind fun oh =>
  (parseNDigits 2 0 (match oh.2 with | ':' :: r2 => r2 | _ => oh.2)).bind fun om =>
  some ((sgn.1, oh.1, om.1), om.2)

/-- Range validation chrono performs when assembling the parsed fields into
a date and time; out-of-range fields make the whole parse fail. -/
def validTimeParts (t : TimeParts) : Bool :=
  decide (1 ≤ t.month) && decide (t.month ≤ 12) && decide (1 ≤ t.day) &&
  decide (t.day ≤ daysInMonth t.year t.month) && decide (t.hour ≤ 23) &&
  decide (t.minute ≤ 59) && decide (t.second ≤ 60) &&
  decide (t.offHour ≤ 23) && decide (t.offMinute ≤ 59)

/-- The calendar-date part of the format: %Y-%m-%d followed by the literal
T.  Returns (year, month, day) and the rest. -/
def parseYmd (s : List Char) : Option ((Nat × Nat × Nat) × List Char) :=
  (parseNDigits 4 0 s).bind fun y =>
  (expectChar '-' y.2).bind fun r1 =>
  (parseNDigits 2 0 r1).bind fun mo =>
  (expectChar '-' mo.2).bind fun r2 =>
  (parseNDigits 2 0 r2).bind fun d =>
  (expectChar 'T' d.2).bind fun r3 =>
  some ((y.1, mo.1, d.1), r3)

/-- The time-of-day part of the format: %H:%M:%S%.3f.  Returns
(hour, minute, second, millis) and the rest. -/
def parseHms (s : List Char) : Option ((Nat × Nat × Nat × Nat) × List Char) :=
  (parseNDigits 2 0 s).bind fun h =>
  (expectChar ':' h.2).bind fun r4 =>
  (parseNDigits 2 0 r4).bind fun mi =>
  (expectChar ':' mi.2).bind fun r5 =>
  (parseNDigits 2 0 r5).bind fun sec =>
  (parseDotMillis sec.2).bind fun ms =>
  some ((h.1, mi.1, sec.1, ms.1), ms.2)

/-- The date-and-time part of the format: %Y-%m-%dT%H:%M:%S%.3f (offset
fields still zero), plus the unconsumed rest of the input. -/
def parseDateTimeCore (s : List Char) : Option (TimeParts × List Char) :=
  (parseYmd s).bind fun ymd =>
  (parseHms ymd.2).bind fun hms =>
  some (⟨ymd.1.1, ymd.1.2.1, ymd.1.2.2, hms.1.1, hms.1.2.1, hms.1.2.2.1,
    hms.1.2.2.2, false, 0, 0⟩, hms.2)

/-- Log::time_from_string, src/main.rs lines 562-570: chrono
parse_from_str with format %Y-%m-%dT%H:%M:%S%.3f%z.  none models the
Default::default() taken on parse failure (the zero/epoch instant). -/
def Log.time_from_string (time_string : String) : Option TimeParts :=
  (parseDateTimeCore time_string.data).bind fun dt =>
  (parseUtcOffset dt.2).bind fun off =>
  if off.2.isEmpty && validTimeParts dt.1 then
    some { dt.1 with offNeg := off.1.1, offHour := off.1.2.1, offMinute := off.1.2.2 }
  else none

/-- serde_json::Value restricted to the shapes the claims exercise: numbers
are modelled as integers (none of the inputs under test carry fractional or
exponent-form numbers). -/
inductive Json where
  | null : Json
  | bool : Bool → Json
  | num : Int → Json
  | str : String → Json
  | arr : List Json → Json
  | obj : List (String × Json) → Json

def hexDigitChar (n : Nat) : Char :=
  if n < 10 then Char.ofNat (48 + n) else Char.ofNat (87 + n)

/-- serde_json string escaping: quote, backslash, the short control escapes,
then u00XX for the remaining control characters. -/
def escapeJsonChar (c : Char) : String :=
  if c = '"' then "\\\""
  else if c = '\\' then "\\\\"
  else if c = '\n' then "\\n"
  else if c = '\r' then "\\r"
  else if c = '\t' then "\\t"
  else if c = Char.ofNat 8 then "\\b"
  else if c = Char.ofNat 12 then "\\f"
  else if c.toNat < 32 then
    "\\u00" ++ String.singleton (hexDigitChar (c.toNat / 16)) ++
      String.singleton (hexDigitChar (c.toNat % 16))
  else String.singleton c

def serializeJsonStr (s : String) : String :=
  "\"" ++ String.join (s.data.map escapeJsonChar) ++ "\""

mutual

/-- Compact serde_json serialization (Value::to_string). -/
def serializeJson : Json → String
  | Json.null => "null"
  | Json.bool b => if b then "true" else "false"
  | Json.num n => toString n
  | Json.str s => serializeJsonStr s
  | Json.arr xs => "[" ++ serializeArrItems xs ++ "]"
  | Json.obj kvs => "\x7b" ++ serializeObjItems kvs ++ "\x7d"
termination_by structural j => j

def serializeArrItems : List Json → String
  | [] => ""
  | [x] => serializeJson x
  | x :: y :: xs => serializeJson x ++ "," ++ serializeArrItems (y :: xs)
termination_by structural l => l

def serializeObjItems : List (String × Json) → String
  | [] => ""
  | [(k, v)] => serializeJsonStr k ++ ":" ++ serializeJson v
  | (k, v) :: y :: xs =>
      serializeJsonStr k ++ ":" ++ serializeJson v ++ "," ++ serializeObjItems (y :: xs)
termination_by structural l => l

end

/-- Lexicographic comparison of character lists by codepoint.  For UTF-8
encoded strings codepoint order coincides with byte order, so this is the
order Rust Vec of String sort() uses on the payload keys. -/
def leCharsB : List Char → List Char → Bool
  | [], _ => true
  | _ :: _, [] => false
  | a :: as, b :: bs =>
    if a.toNat < b.toNat then true
    else if b.toNat < a.toNat then false
    else leCharsB as bs

def strLeB (a b : String) : Bool := leCharsB a.data b.data

/-- The key order of the Payload Normalizer as a relation, for use with
List.insertionSort. -/
def strLeP (a b : String) : Prop := strLeB a b = true

instance : DecidableRel strLeP := fun a b => instDecidableEqBool (strLeB a b) true

/-- Payload Normalizer, src/main.rs lines 368-377: for a non-empty set of
extra key/value pairs, sort the keys, rebuild a JSON object in that order
and serialize it compactly; an empty set yields the empty string. -/
def normalizePayload (p : List (String × Json)) : String :=
  if p.isEmpty then ""
  else
    serializeJson (Json.obj
      ((List.insertionSort strLeP (p.map Prod.fst)).map
        (fun k => (k, ((p.lookup k).getD Json.null)))))

/-- Whitespace skipping of the JSON grammar. -/
def skipWs : List Char → List Char
  | [] => []
  | c :: cs => if c = ' ' ∨ c = '\t' ∨ c = '\n' ∨ c = '\r' then skipWs cs else c :: cs

def hexVal (c : Char) : Option Nat :=
  if 48 ≤ c.toNat ∧ c.toNat ≤ 57 then some (c.toNat - 48)
  else if 97 ≤ c.toNat ∧ c.toNat ≤ 102 then some (c.toNat - 87)
  else if 65 ≤ c.toNat ∧ c.toNat ≤ 70 then some (c.toNat - 55)
  else none

/-- Body of a JSON string literal after its opening quote: plain characters
and the standard escapes, up to the closing quote. -/
def parseStringBody : Nat → List Char → List Char → Option (String × List Char)
  | 0, _, _ => none
  | _ + 1, _, [] => none
  | fuel + 1, acc, c :: cs =>
    if c = '"' then some (String.mk acc.reverse, cs)
    else if c = '\\' then
      match cs with
      | [] => none
      | e :: cs2 =>
        if e = '"' then parseStringBody fuel ('"' :: acc) cs2
        else if e = '\\' then parseStringBody fuel ('\\' :: acc) cs2
        else if e = '/' then parseStringBody fuel ('/' :: acc) cs2
        else if e = 'n' then parseStringBody fuel ('\n' :: acc) cs2
        else if e = 't' then parseStringBody fuel ('\t' :: acc) cs2
        else if e = 'r' then parseStringBody fuel ('\r' :: acc) cs2
        else if e = 'b' then parseStringBody fuel (Char.ofNat 8 :: acc) cs2
        else if e = 'f' then parseStringBody fuel (Char.ofNat 12 :: acc) cs2
        else if e = 'u' then
          match cs2 with
          | h1 :: h2 :: h3 :: h4 :: cs3 =>
            ((hexVal h1).bind fun v1 => (hexVal h2).bind fun v2 =>
             (hexVal h3).bind fun v3 => (hexVal h4).bind fun v4 =>
             some (((v1 * 16 + v2) * 16 + v3) * 16 + v4)).bind fun v =>
            parseStringBody fuel (Char.ofNat v :: acc) cs3
          | _ => none
        else none
    else if c.toNat < 32 then none
    else parseStringBody fuel (c :: acc) cs

/-- Greedily consume decimal digits, accumulating their value. -/
def consumeDigits (acc : Nat) : List Char → Nat × List Char
  | c :: cs => if c.isDigit then consumeDigits (acc * 10 + (c.toNat - 48)) cs else (acc, c :: cs)
  | [] => (acc, [])

/-- True when the upcoming characters would extend the number token into a
fraction or exponent, which this integer-only model rejects. -/
def startsFracOrExp : List Char → Bool
  | c :: _ => c = '.' || c = 'e' || c = 'E'
  | [] => false

/-- A JSON number token restricted to integers: optional minus, then either
a lone zero or a nonzero-led digit run. -/
def parseIntToken (s : List Char) : Option (Int × List Char) :=
  match s with
  | '-' :: rest =>
    (match rest with
      | '0' :: r2 => if startsFracOrExp r2 || (match r2 with | c :: _ => c.isDigit | [] => false) then none else some ((0 : Int), r2)
      | c :: r2 => if c.isDigit then (let p := consumeDigits (c.toNat - 48) r2; if startsFracOrExp p.2 then none else some (-(p.1 : Int), p.2)) else none
      | [] => none)
  | '0' :: r2 => if startsFracOrExp r2 || (match r2 with | c :: _ => c.isDigit | [] => false) then none else some ((0 : Int), r2)
  | c :: r2 => if c.isDigit then (let p := consumeDigits (c.toNat - 48) r2; if startsFracOrExp p.2 then none else some ((p.1 : Int), p.2)) else none
  | [] => none

/-- Mode of the recursive-descent JSON reader: a value, the items of an
array after its first opening, or the members of an object. -/
inductive PMode where
  | val : PMode
  | arrItems : List Json → PMode
  | objItems : List (String × Json) → PMode

/-- Recursive-descent reader for serde_json::from_str, fueled to make the
recursion structural.  Returns the value and the unconsumed rest. -/
def parseJsonCore : Nat → PMode → List Char → Option (Json × List Char)
  | 0, _, _ => none
  | fuel + 1, PMode.val, s =>
    match skipWs s with
    | [] => none
    | c :: cs =>
      if c = '"' then (parseStringBody (cs.length + 1) [] cs).map (fun p => (Json.str p.1, p.2))
      else if c = '[' then
        match skipWs cs with
        | ']' :: cs2 => some (Json.arr [], cs2)
        | cs2 => parseJsonCore fuel (PMode.arrItems []) cs2
      else if c = '\x7b' then
        match skipWs cs with
        | '\x7d' :: cs2 => some (Json.obj [], cs2)
        | cs2 => parseJsonCore fuel (PMode.objItems []) cs2
      else if c = 't' then
        match cs with
        | 'r' :: 'u' :: 'e' :: cs2 => some (Json.bool true, cs2)
        | _ => none
      else if c = 'f' then
        match cs with
        | 'a' :: 'l' :: 's' :: 'e' :: cs2 => some (Json.bool false, cs2)
        | _ => none
      else if c = 'n' then
        match cs with
        | 'u' :: 'l' :: 'l' :: cs2 => some (Json.null, cs2)
        | _ => none
      else if c = '-' ∨ c.isDigit then (parseIntToken (c :: cs)).map (fun p => (Json.num p.1, p.2))
      else none
  | fuel + 1, PMode.arrItems acc, s =>
    (parseJsonCore fuel PMode.val s).bind fun p =>
    match skipWs p.2 with
    | ',' :: r2 => parseJsonCore fuel (PMode.arrItems (acc ++ [p.1])) r2
    | ']' :: r2 => some (Json.arr (acc ++ [p.1]), r2)
    | _ => none
  | fuel + 1, PMode.objItems acc, s =>
    match skipWs s with
    | '"' :: r0 =>
      (parseStringBody (r0.length + 1) [] r0).bind fun kp =>
      (match skipWs kp.2 with
        | ':' :: r2 => some r2
        | _ => none).bind fun r2 =>
      (parseJsonCore fuel PMode.val r2).bind fun vp =>
      match skipWs vp.2 with
      | ',' :: r4 => parseJsonCore fuel (PMode.objItems (acc ++ [(kp.1, vp.1)])) r4
      | '\x7d' :: r4 => some (Json.obj (acc ++ [(kp.1, vp.1)]), r4)
      | _ => none
    | _ => none

/-- serde_json::from_str over a whole line: one JSON value, nothing but
whitespace around it. -/
def parseJsonStrict (s : String) : Option Json :=
  (parseJsonCore (4 * s.data.length + 16) PMode.val s.data).bind fun p =>
  if (skipWs p.2).isEmpty then some p.1 else none

/-- The serde target of one line, src/main.rs lines 574-583: required string
fields level, ts, msg; optional caller defaulting to empty; every other
key/value pair is flattened into the payload map. -/
structure JsonLine where
  level : String
  ts : String
  msg : String
  caller : String
  payload : List (String × Json)

def asJsonString : Json → Option String
  | Json.str s => some s
  | _ => none

def isReservedKey (k : String) : Bool :=
  k == "level" || k == "ts" || k == "msg" || k == "caller"

/-- serde_json::from_value for JsonLine: the value must be an object whose
level, ts and msg members are strings; caller, when present, must be a
string and otherwise defaults to empty; the remaining members form the
payload. -/
def jsonLineOfValue : Json → Option JsonLine
  | Json.obj kvs =>
    ((kvs.lookup "level").bind asJsonString).bind fun lv =>
    ((kvs.lookup "ts").bind asJsonString).bind fun ts =>
    ((kvs.lookup "msg").bind asJsonString).bind fun ms =>
    (match kvs.lookup "caller" with
      | none => some ""
      | some v => asJsonString v).bind fun ca =>
    some { level := lv, ts := ts, msg := ms, caller := ca,
           payload := kvs.filter (fun kv => !isReservedKey kv.1) }
  | _ => none

/-- One parsed log record, src/main.rs lines 552-559. -/
structure Log where
  time : Option TimeParts
  level : Level
  message : String
  caller : String
  payload : String
deriving DecidableEq

/-- The per-line work of App::read_file, src/main.rs lines 364-386: decode
the line as JSON, decode that into a JsonLine, normalize the payload and
build the Log record; any failure drops the line. -/
def parseLine (line : String) : Option Log :=
  (parseJsonStrict line).bind fun v =>
  (jsonLineOfValue v).bind fun jl =>
  some { time := Log.time_from_string jl.ts,
         level := Level.from_string jl.level,
         message := jl.msg,
         payload := normalizePayload jl.payload,
         caller := jl.caller }

/-- The engine state, struct App, src/main.rs lines 28-52.  The HashSet of
selected row indices is modelled as a list of indices. -/
structure App where
  picked_path : Option String
  logs : List Log
  filtered_logs : List Log
  filter_level_debug : Bool
  filter_level_info : Bool
  filter_level_warning : Bool
  filter_level_error : Bool
  filter_level_panic : Bool
  filter_message : String
  filter_payload : String
  filter_caller : String
  search_founds : List Nat
  search_found_cursor : Nat
  search_found_scroll_row : Option Nat
  search_level_debug : Bool
  search_level_info : Bool
  search_level_warning : Bool
  search_level_error : Bool
  search_level_panic : Bool
  search_message : String
  search_payload : String
  search_caller : String
  selection : List Nat

/-- Default for App, src/main.rs lines 55-83. -/
def App.default : App where
  picked_path := none
  logs := []
  filtered_logs := []
  filter_level_debug := true
  filter_level_info := true
  filter_level_warning := true
  filter_level_error := true
  filter_level_panic := true
  filter_message := ""
  filter_payload := ""
  filter_caller := ""
  search_founds := []
  search_found_cursor := 0
  search_found_scroll_row := none
  search_level_debug := false
  search_level_info := false
  search_level_warning := false
  search_level_error := false
  search_level_panic := false
  search_message := ""
  search_payload := ""
  search_caller := ""
  selection := []

/-- The row predicate of App::filter, src/main.rs lines 396-406. -/
def filterPred (st : App) (row : Log) : Bool :=
  let level := (row.level == Level.Unknown)
    || (row.level == Level.Debug && st.filter_level_debug)
    || (row.level == Level.Info && st.filter_level_info)
    || (row.level == Level.Warning && st.filter_level_warning)
    || (row.level == Level.Error && st.filter_level_error)
    || (row.level == Level.Panic && st.filter_level_panic)
  let message := containsCI row.message st.filter_message
  let payload := containsCI row.payload st.filter_payload
  let caller := containsCI row.caller st.filter_caller
  level && message && payload && caller

/-- The row predicate of App::search, src/main.rs lines 440-450. -/
def searchPred (st : App) (row : Log) : Bool :=
  let level := (row.level == Level.Unknown)
    || (row.level == Level.Debug && st.search_level_debug)
    || (row.level == Level.Info && st.search_level_info)
    || (row.level == Level.Warning && st.search_level_warning)
    || (row.level == Level.Error && st.search_level_error)
    || (row.level == Level.Panic && st.search_level_panic)
  let message := containsCI row.message st.search_message
  let payload := containsCI row.payload st.search_payload
  let caller := containsCI row.caller st.search_caller
  level && message && payload && caller

/-- The short-circuit condition of App::search, src/main.rs lines 426-433:
every search level flag off and every search substring empty. -/
def searchIsIdle (st : App) : Bool :=
  !st.search_level_debug && !st.search_level_info && !st.search_level_warning
    && !st.search_level_error && !st.search_level_panic
    && st.search_message.isEmpty && st.search_payload.isEmpty
    && st.search_caller.isEmpty

/-- App::search_reset, src/main.rs lines 468-478: clear every search
predicate field and the match list.  The cursor and the scroll target are
not touched. -/
def App.search_reset (st : App) : App :=
  { st with search_level_debug := false, search_level_info := false,
            search_level_warning := false, search_level_error := false,
            search_level_panic := false, search_message := "",
            search_payload := "", search_caller := "", search_founds := [] }

/-- The match list App::search builds, src/main.rs lines 438-453: indices
of the filtered rows satisfying the search predicate, in order. -/
def searchFoundsList (st : App) : List Nat :=
  ((st.filtered_logs.enum).filter (fun p => searchPred st p.2)).map (fun p => p.1)

/-- App::search, src/main.rs lines 425-456: when the search predicate is
idle, delegate to search_reset; otherwise rebuild the match list and set
the cursor to 0. -/
def App.search (st : App) : App :=
  if searchIsIdle st then App.search_reset st
  else { st with search_founds := searchFoundsList st, search_found_cursor := 0 }

/-- App::filter, src/main.rs lines 394-411: rebuild the visible rows from
the full store and re-run the search. -/
def App.filter (st : App) : App :=
  App.search { st with filtered_logs := st.logs.filter (filterPred st) }

/-- App::filter_reset, src/main.rs lines 413-423: all level flags true, all
substrings empty, then re-filter. -/
def App.filter_reset (st : App) : App :=
  App.filter { st with
    filter_level_debug := true, filter_level_info := true,
    filter_level_warning := true, filter_level_error := true,
    filter_level_panic := true, filter_message := "", filter_payload := "",
    filter_caller := "" }

/-- App::read_file, src/main.rs lines 360-392: clear the store; when a path
was picked, re-ingest every line of the file at that path (supplied here as
fileLines, line-level failures dropped) and run filter_reset.  The selection
is never touched. -/
def App.read_file (st : App) (fileLines : List String) : App :=
  let st1 := { st with logs := [] }
  match st1.picked_path with
  | none => st1
  | some _ => App.filter_reset { st1 with logs := fileLines.filterMap parseLine }

/-- App::search_first, src/main.rs lines 480-487. -/
def App.search_first (st : App) : App :=
  let st1 := { st with search_found_cursor := 0 }
  if st1.search_founds.isEmpty then { st1 with search_found_scroll_row := none }
  else { st1 with search_found_scroll_row := st1.search_founds.get? st1.search_found_cursor }

/-- App::search_previous, src/main.rs lines 489-496. -/
def App.search_previous (st : App) : App :=
  if st.search_founds.isEmpty ∨ st.search_found_cursor ≤ 0 then
    { st with search_found_scroll_row := none }
  else
    let c := st.search_found_cursor - 1
    { st with search_found_cursor := c, search_found_scroll_row := st.search_founds.get? c }

/-- App::search_next, src/main.rs lines 498-505. -/
def App.search_next (st : App) : App :=
  if st.search_founds.isEmpty ∨ st.search_founds.length - 1 ≤ st.search_found_cursor then
    { st with search_found_scroll_row := none }
  else
    let c := st.search_found_cursor + 1
    { st with search_found_cursor := c, search_found_scroll_row := st.search_founds.get? c }

/-- App::search_last, src/main.rs lines 507-514.  The empty branch of the
source sets cursor 0 and clears the scroll target but does not return, so
the subsequent len() - 1 still runs; on an empty match list that usize
subtraction underflows (panic in a debug build, wrap to 2^64 - 1 in
release), modelled here by the wrapping usizeSub. -/
def App.search_last (st : App) : App :=
  let st1 :=
    if st.search_founds.isEmpty then
      { st with search_found_cursor := 0, search_found_scroll_row := none }
    else st
  let c := usizeSub st1.search_founds.length 1
  { st1 with search_found_cursor := c, search_found_scroll_row := st1.search_founds.get? c }

/-- The level gate of the filter contract as the specification phrases it:
the FilterState flag corresponding to a record level (Unknown has no
flag). -/
def filterLevelFlag (st : App) : Level → Bool
  | Level.Unknown => false
  | Level.Debug => st.filter_level_debug
  | Level.Info => st.filter_level_info
  | Level.Warning => st.filter_level_warning
  | Level.Error => st.filter_level_error
  | Level.Panic => st.filter_level_panic

/-- A record with the given level and message and everything else empty. -/
def mkLog (lv : Level) (msg : String) : Log :=
  { time := none, level := lv, message := msg, payload := "", caller := "" }

/-- The three input lines of the ingestion scenario. -/
def c8Lines : List String :=
  ["\x7b\"level\":\"INFO\",\"ts\":\"2024-01-02T15:04:05.123+00:00\",\"msg\":\"start\",\"x\":1,\"a\":2\x7d",
   "\x7b\"level\":\"bogus\",\"ts\":\"not-a-date\",\"msg\":\"oops\"\x7d",
   "not json at all"]

/-- A session that has picked a file, ready to ingest. -/
def c8State : App := { App.default with picked_path := some "test.log" }

/-- The five visible records of the search scenario: positions 1 and 3
contain the substring start in their message, the others do not. -/
def c4Logs : List Log :=
  [mkLog Level.Unknown "alpha", mkLog Level.Unknown "restart engine",
   mkLog Level.Unknown "beta", mkLog Level.Unknown "start now",
   mkLog Level.Unknown "gamma"]

/-- The search-scenario session: the five records are loaded and visible
and the search message substring is start, every other search field at its
default. -/
def c4State : App :=
  { App.default with
    picked_path := some "app.log", logs := c4Logs,
    filtered_logs := c4Logs, search_message := "start" }

/-- A session whose search fields are idle but whose match list and cursor
hold stale values from an earlier, different search. -/
def c3State : App :=
  { App.default with search_founds := [0, 1], search_found_cursor := 5 }

/-- A session with one loaded record and with row 0 selected, about to
reload. -/
def c2State : App :=
  { App.default with
    picked_path := some "app.log",
    logs := [mkLog Level.Info "hello"], selection := [0] }

/-- The single line c2State reloads. -/
def c2Lines : List String :=
  ["\x7b\"level\":\"INFO\",\"ts\":\"2024-01-02T15:04:05.123+00:00\",\"msg\":\"hello\"\x7d"]

/-- An idle-search session whose visible set nevertheless holds an
Unknown-level record. -/
def c5State : App :=
  { App.default with filtered_logs := [mkLog Level.Unknown "anything"] }

theorem containsChars_nil (l : List Char) : containsChars l [] = true := by
  cases l <;> simp [containsChars, isPrefixOfChars]

theorem search_preserves_filtered_logs (st : App) :
    (App.search st).filtered_logs = st.filtered_logs := by
  unfold App.search App.search_reset
  split <;> rfl

theorem search_preserves_selection (st : App) :
    (App.search st).selection = st.selection := by
  unfold App.search App.search_reset
  split <;> rfl

theorem filter_preserves_selection (st : App) :
    (App.filter st).selection = st.selection := by
  unfold App.filter
  rw [search_preserves_selection]

theorem filter_reset_preserves_selection (st : App) :
    (App.filter_reset st).selection = st.selection := by
  unfold App.filter_reset
  rw [filter_preserves_selection]

theorem filterPred_iff (st : App) (r : Log) :
    filterPred st r = true ↔
      ((r.level = Level.Unknown ∨ filterLevelFlag st r.level = true) ∧
       containsCI r.message st.filter_message = true ∧
       containsCI r.payload st.filter_payload = true ∧
       containsCI r.caller st.filter_caller = true) := by
  unfold filterPred
  cases hl : r.level <;>
    simp [hl, filterLevelFlag, Bool.and_eq_true, Bool.or_eq_true, and_assoc]

theorem leCharsB_total : ∀ as bs : List Char, leCharsB as bs = true ∨ leCharsB bs as = true := by
  intro as
  induction as with
  | nil => intro bs; left; rfl
  | cons a as ih =>
    intro bs
    cases bs with
    | nil => right; rfl
    | cons b bs =>
      simp only [leCharsB]
      rcases Nat.lt_trichotomy a.toNat b.toNat with h | h | h
      · left; simp [h]
      · have h1 : ¬ a.toNat < b.toNat := by omega
        have h2 : ¬ b.toNat < a.toNat := by omega
        simpa [h1, h2] using ih bs
      · right; simp [h]

theorem leCharsB_trans : ∀ as bs cs : List Char,
    leCharsB as bs = true → leCharsB bs cs = true → leCharsB as cs = true := by
  intro as
  induction as with
  | nil => intro bs cs _ _; rfl
  | cons a as ih =>
    intro bs cs h1 h2
    cases bs with
    | nil => simp [leCharsB] at h1
    | cons b bs =>
      cases cs with
      | nil => simp [leCharsB] at h2
      | cons c cs =>
        simp only [leCharsB] at h1 h2 ⊢
        rcases Nat.lt_trichotomy a.toNat b.toNat with hab | hab | hab
        · rcases Nat.lt_trichotomy b.toNat c.toNat with hbc | hbc | hbc
          · have hac : a.toNat < c.toNat := by omega
            simp [hac]
          · have hac : a.toNat < c.toNat := by omega
            simp [hac]
          · have h2f : ¬ b.toNat < c.toNat := by omega
            simp [h2f, hbc] at h2
        · rcases Nat.lt_trichotomy b.toNat c.toNat with hbc | hbc | hbc
          · have hac : a.toNat < c.toNat := by omega
            simp [hac]
          · have hn1 : ¬ a.toNat < b.toNat := by omega
            have hn2 : ¬ b.toNat < a.toNat := by omega
            have hn3 : ¬ b.toNat < c.toNat := by omega
            have hn4 : ¬ c.toNat < b.toNat := by omega
            have hn5 : ¬ a.toNat < c.toNat := by omega
            have hn6 : ¬ c.toNat < a.toNat := by omega
            simp only [hn1, hn2, if_false] at h1
            simp only [hn3, hn4, if_false] at h2
            simp only [hn5, hn6, if_false]
            exact ih bs cs h1 h2
          · have h2f : ¬ b.toNat < c.toNat := by omega
            simp [h2f, hbc] at h2
        · have h1f : ¬ a.toNat < b.toNat := by omega
          simp [h1f, hab] at h1

theorem leCharsB_antisymm : ∀ as bs : List Char,
    leCharsB as bs = true → leCharsB bs as = true → as = bs := by
  intro as
  induction as with
  | nil =>
    intro bs h1 h2
    cases bs with
    | nil => rfl
    | cons b bs => simp [leCharsB] at h2
  | cons a as ih =>
    intro bs h1 h2
    cases bs with
    | nil => simp [leCharsB] at h1
    | cons b bs =>
      simp only [leCharsB] at h1 h2
      rcases Nat.lt_trichotomy a.toNat b.toNat with hab | hab | hab
      · simp_all [Nat.lt_asymm]
      · have hne1 : ¬ a.toNat < b.toNat := by omega
        have hne2 : ¬ b.toNat < a.toNat := by omega
        simp only [hne1, hne2, if_false] at h1 h2
        have hc : a = b := Char.eq_of_val_eq (by
          apply UInt32.eq_of_val_eq
          apply Fin.ext
          exact hab)
        rw [hc, ih bs h1 h2]
      · simp_all [Nat.lt_asymm]

instance : IsTotal String strLeP :=
  ⟨fun a b => leCharsB_total a.data b.data⟩

instance : IsTrans String strLeP :=
  ⟨fun a b c => leCharsB_trans a.data b.data c.data⟩

instance : IsAntisymm String strLeP :=
  ⟨fun a b h1 h2 => by
    cases a
    cases b
    exact congrArg String.mk (leCharsB_antisymm _ _ h1 h2)⟩

theorem lookup_eq_of_perm (k : String) {p1 p2 : List (String × Json)}
    (h : p1.Perm p2) :
    (p1.map Prod.fst).Nodup → p1.lookup k = p2.lookup k := by
  induction h with
  | nil => intro _; rfl
  | cons x h ih =>
    intro hn
    obtain ⟨x1, x2⟩ := x
    simp only [List.map_cons, List.nodup_cons] at hn
    simp only [List.lookup]
    cases hb : k == x1
    · exact ih hn.2
    · rfl
  | swap x y l =>
    intro hn
    obtain ⟨x1, x2⟩ := x
    obtain ⟨y1, y2⟩ := y
    simp only [List.map_cons, List.nodup_cons, List.mem_cons] at hn
    have hxy : y1 ≠ x1 := fun hc => hn.1 (Or.inl hc)
    cases hb1 : k == y1 <;> cases hb2 : k == x1 <;>
      simp only [List.lookup, hb1, hb2]
    exact absurd ((eq_of_beq hb1).symm.trans (eq_of_beq hb2)) hxy
  | trans h1 h2 ih1 ih2 =>
    intro hn
    have hn2 := ((h1.map Prod.fst).nodup_iff).mp hn
    exact (ih1 hn).trans (ih2 hn2)

/-- Claim C7: the Payload Normalizer is order-insensitive: two payload maps
holding the same key/value pairs in different order (keys distinct, as in
any JSON object) normalize to identical strings; and the empty payload
normalizes to the empty string, not to the empty-object string. -/
theorem payload_normalizer_deterministic :
    (∀ p1 p2 : List (String × Json), p1.Perm p2 → (p1.map Prod.fst).Nodup →
      normalizePayload p1 = normalizePayload p2) ∧
    normalizePayload [] = "" ∧ normalizePayload [] ≠ "\x7b\x7d" := by
  refine ⟨?_, rfl, by decide⟩
  intro p1 p2 hp hn
  unfold normalizePayload
  have hlen := hp.length_eq
  have hemp : p1.isEmpty = p2.isEmpty := by
    cases p1 <;> cases p2 <;> simp_all
  rw [hemp]
  by_cases he : p2.isEmpty = true
  · simp [he]
  · have hkeys : List.insertionSort strLeP (p1.map Prod.fst) =
        List.insertionSort strLeP (p2.map Prod.fst) := by
      refine List.eq_of_perm_of_sorted ?_
        (List.sorted_insertionSort strLeP (p1.map Prod.fst))
        (List.sorted_insertionSort strLeP (p2.map Prod.fst))
      exact (List.perm_insertionSort strLeP (p1.map Prod.fst)).trans
        ((hp.map Prod.fst).trans (List.perm_insertionSort strLeP (p2.map Prod.fst)).symm)
    have hlook : ∀ kk : String, p1.lookup kk = p2.lookup kk :=
      fun kk => lookup_eq_of_perm kk hp hn
    simp only [he, if_false, hkeys, hlook]

/-- Claim C7 witness: the two orderings of the concrete payload of the
ingestion scenario normalize identically. -/
theorem payload_normalizer_deterministic_witness :
    normalizePayload [("x", Json.num 1), ("a", Json.num 2)] =
      normalizePayload [("a", Json.num 2), ("x", Json.num 1)] :=
  payload_normalizer_deterministic.1 _ _ (List.Perm.swap _ _ _) (by decide)

/-- Claim C1 (failing input): invoking search_last on an empty match list
(the default session) does not clamp the cursor to 0.  The empty branch of
the source lacks a return, so the usize subtraction len() - 1 still runs
and underflows: the cursor becomes 2^64 - 1 under release-mode wrapping (a
debug build panics at that subtraction); no scroll target is produced. -/
theorem search_last_empty_underflows :
    (App.search_last App.default).search_found_cursor = 2 ^ 64 - 1 ∧
    (App.search_last App.default).search_found_cursor ≠ 0 ∧
    (App.search_last App.default).search_found_scroll_row = none := by
  decide

/-- Claim C2 (counterexample): reloading a session that had row 0 selected
leaves row 0 selected; the Selection is not emptied by the reload. -/
theorem read_file_keeps_selection_cex :
    (App.read_file c2State c2Lines).selection = [0] ∧
    (App.read_file c2State c2Lines).selection ≠ [] := by
  decide

/-- Claim C2 (amended): reloading re-runs ingestion and replaces the Log
Store, but leaves the Selection exactly as it was: read_file never touches
the selection set. -/
theorem read_file_preserves_selection (st : App) (fileLines : List String) :
    (App.read_file st fileLines).selection = st.selection := by
  unfold App.read_file
  cases h : st.picked_path
  · simp [h]
  · simp [h, filter_reset_preserves_selection]

/-- Claim C3 (counterexample): recomputing the search while the search
predicate is idle does not reset the cursor: on a session with stale
cursor 5, App::search takes the search_reset short-circuit, which clears
the match list but leaves the cursor at 5. -/
theorem search_idle_keeps_cursor_cex :
    (App.search c3State).search_found_cursor = 5 ∧
    (App.search c3State).search_found_cursor ≠ 0 ∧
    (App.search c3State).search_founds = [] := by
  decide

/-- Claim C3 (amended): whenever the search is recomputed with a non-idle
predicate the cursor is reset to 0 and the match list is rebuilt; when the
recomputation finds the predicate idle, the match list is cleared but the
cursor keeps its previous value. -/
theorem search_recompute_cursor_amended (st : App) :
    (App.search st).search_found_cursor =
      (if searchIsIdle st then st.search_found_cursor else 0) ∧
    (App.search st).search_founds =
      (if searchIsIdle st then [] else searchFoundsList st) := by
  by_cases h : searchIsIdle st = true <;>
    simp [App.search, App.search_reset, h]

/-- Claim C4: on the five-record visible set whose records 1 and 3 contain
start in their message (and whose records carry no recognized level, so
the all-off default search level flags let them through), searching for the
message substring start yields matches [1, 3] with cursor 0; next moves the
cursor to 1 and scrolls to visible row 3; a second next is a no-op that
leaves the cursor at 1 and yields no scroll target. -/
theorem search_scenario_message_start :
    (containsCI (mkLog Level.Unknown "restart engine").message "start" = true) ∧
    (containsCI (mkLog Level.Unknown "start now").message "start" = true) ∧
    (containsCI (mkLog Level.Unknown "alpha").message "start" = false) ∧
    ((App.search c4State).search_founds = [1, 3]) ∧
    ((App.search c4State).search_found_cursor = 0) ∧
    ((App.search_next (App.search c4State)).search_found_cursor = 1) ∧
    ((App.search_next (App.search c4State)).search_found_scroll_row = some 3) ∧
    ((App.search_next (App.search_next (App.search c4State))).search_found_cursor = 1) ∧
    ((App.search_next (App.search_next (App.search c4State))).search_found_scroll_row = none) := by
  decide

/-- Claim C5: when every search level flag is false and every search
substring is empty, App::search short-circuits through search_reset and the
match list comes out empty, whatever the visible set holds. -/
theorem idle_search_no_matches (st : App) (h : searchIsIdle st = true) :
    (App.search st).search_founds = [] := by
  simp [App.search, App.search_reset, h]

/-- Claim C5 witness: the default search state over a visible set holding
an Unknown-level record is idle and produces no matches. -/
theorem idle_search_no_matches_witness :
    searchIsIdle c5State = true ∧ (App.search c5State).search_founds = [] :=
  ⟨by decide, idle_search_no_matches c5State (by decide)⟩

/-- Claim C6: membership in the visible set App::filter derives is exactly
the conjunction of the level gate (Unknown always passes, otherwise the
record level's flag must be on) and the three case-insensitive substring
gates on message, payload and caller; and an empty substring predicate
passes every record. -/
theorem filter_conjunctivity :
    (∀ (st : App) (r : Log),
      r ∈ (App.filter st).filtered_logs ↔
        (r ∈ st.logs ∧ (r.level = Level.Unknown ∨ filterLevelFlag st r.level = true) ∧
         containsCI r.message st.filter_message = true ∧
         containsCI r.payload st.filter_payload = true ∧
         containsCI r.caller st.filter_caller = true)) ∧
    (∀ s : String, containsCI s "" = true) := by
  constructor
  · intro st r
    unfold App.filter
    rw [search_preserves_filtered_logs, List.mem_filter, filterPred_iff]
  · intro s
    exact containsChars_nil _


/-- Claim C8: ingesting the three scenario lines produces exactly two
records: the first with level Info and payload sorted to key order a then
x; the second with level Unknown, the default timestamp (its ts does not
parse) and an empty payload; the non-JSON third line is dropped without
aborting ingestion. -/
theorem ingestion_scenario :
    ((App.read_file c8State c8Lines).logs.length = 2) ∧
    (((App.read_file c8State c8Lines).logs.get? 0).map Log.level = some Level.Info) ∧
    (((App.read_file c8State c8Lines).logs.get? 0).map Log.payload =
      some "\x7b\"a\":2,\"x\":1\x7d") ∧
    (((App.read_file c8State c8Lines).logs.get? 1).map Log.level = some Level.Unknown) ∧
    (((App.read_file c8State c8Lines).logs.get? 1).map Log.time = some none) ∧
    (((App.read_file c8State c8Lines).logs.get? 1).map Log.payload = some "") := by
  decide

/-- Claim C9: with the cursor inside [0, len(matches) - 1], next and
previous leave the match list unchanged and keep the cursor inside the
bounds; next at the last match and previous at the first match leave the
cursor where it is (no wraparound). -/
theorem navigation_bounds (st : App)
    (h : st.search_found_cursor < st.search_founds.length) :
    (App.search_next st).search_founds = st.search_founds ∧
    (App.search_previous st).search_founds = st.search_founds ∧
    (App.search_next st).search_found_cursor < st.search_founds.length ∧
    (App.search_previous st).search_found_cursor < st.search_founds.length ∧
    (st.search_found_cursor = st.search_founds.length - 1 →
      (App.search_next st).search_found_cursor = st.search_found_cursor) ∧
    (st.search_found_cursor = 0 →
      (App.search_previous st).search_found_cursor = st.search_found_cursor) := by
  have hne : st.search_founds.isEmpty = false := by
    cases hf : st.search_founds
    · rw [hf] at h; simp at h
    · rfl
  unfold App.search_next App.search_previous
  split_ifs with h1 h2 <;> simp_all <;> omega

/-- Claim C9 witness: both navigation operations respect the bounds on a
one-match list with the cursor at 0. -/
theorem navigation_bounds_witness :
    (App.search_next { App.default with search_founds := [5] }).search_founds =
      ({ App.default with search_founds := [5] } : App).search_founds ∧
    (App.search_next { App.default with search_founds := [5] }).search_found_cursor <
      ({ App.default with search_founds := [5] } : App).search_founds.length :=
  ⟨(navigation_bounds { App.default with search_founds := [5] } (by decide)).1,
   (navigation_bounds { App.default with search_founds := [5] } (by decide)).2.2.1⟩

/-- Claim C10: level parsing recognizes exactly the five case-sensitive
tokens DEBUG, INFO, WARN, ERROR and PANIC; in particular WARNING maps to
Unknown, not Warning, and the Warning level renders back as WARN. -/
theorem level_token_recognition :
    (∀ s : String, Level.from_string s ≠ Level.Unknown ↔
      s ∈ ["DEBUG", "INFO", "WARN", "ERROR", "PANIC"]) ∧
    Level.from_string "DEBUG" = Level.Debug ∧
    Level.from_string "INFO" = Level.Info ∧
    Level.from_string "WARN" = Level.Warning ∧
    Level.from_string "ERROR" = Level.Error ∧
    Level.from_string "PANIC" = Level.Panic ∧
    Level.from_string "WARNING" = Level.Unknown ∧
    Level.to_string Level.Warning = "WARN" := by
  refine ⟨?_, by decide, by decide, by decide, by decide, by decide, by decide, rfl⟩
  intro s
  unfold Level.from_string
  split_ifs with h1 h2 h3 h4 h5 <;> simp_all
